import Mathlib

/-!
Verification of the conflict-detection and risk-aggregation engine of the
Cei-Noise repository (drone airspace safety analysis).

The embedded code lives in three files:
- src/backend/.ipynb_checkpoints/ntsc_calculator-checkpoint.py
  (class NTSCCalculator),
- src/backend/.ipynb_checkpoints/enhanced_route_analyzer-checkpoint.py
  (class EnhancedRouteAnalyzer),
- src/backend/.ipynb_checkpoints/airspace_capacity-checkpoint.py
  (class AirspaceCapacityAnalyzer).

Embedding conventions, used throughout and noted on each definition:
- Times, coordinates and distances are exact rationals in place of Python
  floats.
- The haversine distance (identical in all three files) evaluates
  trigonometric functions, which have no exact rational counterpart; the
  numeric horizontal-distance function is therefore an abstract parameter
  hdist of each embedded function that consumes it. Every theorem below
  holds for all values of hdist; concrete instances place all aircraft at
  coincident coordinates, where the source formula returns exactly 0 (all
  angle differences vanish). None of the source haversine implementations
  performs any input validation: they compute on arbitrary numbers.
- Python float division raises ZeroDivisionError on a zero denominator;
  a function whose division can be reached with a zero denominator is
  embedded with an Option result whose none value is that exception, and
  the exception propagates through callers as none.
- A comparison of math.sqrt(x) against a positive constant c is embedded as
  the equivalent comparison of x against c squared (sqrt is strictly
  monotone and both sides are nonnegative), keeping values rational.
- The Python int() conversion truncates toward zero, embedded as pyTrunc.
- Fields of returned dicts that no claim mentions and whose value is
  irrational (min_distance and distance, both square roots) are omitted
  from the embedded records, as is the risk_assessment field of the route
  conflict report; the omissions are noted on the records involved.
-/

/-- A position dictionary with keys longitude, latitude, height, as passed
around by NTSCCalculator (degrees, degrees, metres). -/
structure GeoPoint3D where
  longitude : ℚ
  latitude : ℚ
  height : ℚ
deriving DecidableEq

/-- Embedding of the FlightSegment dataclass of
ntsc_calculator-checkpoint.py lines 6 to 13: start and end times, start and
end positions, and the aircraft identifier string. -/
structure FlightSegment where
  start_time : ℚ
  end_time : ℚ
  start_pos : GeoPoint3D
  end_pos : GeoPoint3D
  aircraft_id : String
deriving DecidableEq

/-- The clamping max(0, min(1, r)) of ntsc_calculator-checkpoint.py
line 101. -/
def clamp01 (r : ℚ) : ℚ := max 0 (min 1 r)

/-- Embedding of NTSCCalculator._interpolate_position,
ntsc_calculator-checkpoint.py lines 98 to 110. The ratio
(time - start_time) / (end_time - start_time) is computed unconditionally;
when the denominator is zero the Python division raises ZeroDivisionError,
embedded as the none branch. Otherwise the ratio is clamped to [0, 1] and
each coordinate is start + ratio * (end - start). -/
def interpolate_position (segment : FlightSegment) (time : ℚ) : Option GeoPoint3D :=
  if segment.end_time - segment.start_time = 0 then none
  else
    let t_ratio := clamp01 ((time - segment.start_time) /
      (segment.end_time - segment.start_time))
    some { longitude := segment.start_pos.longitude +
             t_ratio * (segment.end_pos.longitude - segment.start_pos.longitude)
           latitude := segment.start_pos.latitude +
             t_ratio * (segment.end_pos.latitude - segment.start_pos.latitude)
           height := segment.start_pos.height +
             t_ratio * (segment.end_pos.height - segment.start_pos.height) }

/-- Embedding of the per-sample conflict test of
NTSCCalculator._calculate_conflict_duration, ntsc_calculator-checkpoint.py
lines 90 to 91: horizontal_dist < HORIZONTAL_SEPARATION (50) and
vertical_dist < VERTICAL_SEPARATION (30), both strict, with the constants
of lines 19 to 20. -/
def separation_check (horizontal_dist vertical_dist : ℚ) : Bool :=
  decide (horizontal_dist < 50) && decide (vertical_dist < 30)

/-- The instants visited by the while loop of
ntsc_calculator-checkpoint.py lines 76 to 94: t starts at overlap_start and
advances by time_step = 1.0 while t is at most overlap_end; the loop body
never runs when overlap_start exceeds overlap_end. -/
def sampleTimes (overlap_start overlap_end : ℚ) : List ℚ :=
  if overlap_end < overlap_start then []
  else (List.range ((⌊overlap_end - overlap_start⌋).toNat + 1)).map
    (fun k => overlap_start + k)

/-- One iteration of the sampling loop of
ntsc_calculator-checkpoint.py lines 77 to 94: interpolate both positions at
t (a ZeroDivisionError propagates as none), then apply the separation test
to the horizontal distance given by hdist and the vertical distance
given by the absolute height difference. -/
def sampleConflict (hdist : GeoPoint3D → GeoPoint3D → ℚ)
    (seg1 seg2 : FlightSegment) (t : ℚ) : Option Bool :=
  match interpolate_position seg1 t, interpolate_position seg2 t with
  | some pos1, some pos2 =>
      some (separation_check (hdist pos1 pos2) |pos1.height - pos2.height|)
  | _, _ => none

/-- The accumulation of conflict_duration over the sampling loop of
ntsc_calculator-checkpoint.py lines 72 to 94: each in-conflict sample adds
time_step = 1.0; an exception at any sample aborts the call (none). -/
def sumConflictSamples (hdist : GeoPoint3D → GeoPoint3D → ℚ)
    (seg1 seg2 : FlightSegment) : List ℚ → Option ℚ
  | [] => some 0
  | t :: ts =>
    match sampleConflict hdist seg1 seg2 t, sumConflictSamples hdist seg1 seg2 ts with
    | some b, some d => some ((if b then 1 else 0) + d)
    | _, _ => none

/-- Embedding of NTSCCalculator._calculate_conflict_duration,
ntsc_calculator-checkpoint.py lines 69 to 96, restricted to the
conflict-duration component of the returned pair; the min_distance
component is a square root (line 87) that no claim mentions and is
omitted. -/
def conflict_duration (hdist : GeoPoint3D → GeoPoint3D → ℚ)
    (seg1 seg2 : FlightSegment) (overlap_start overlap_end : ℚ) : Option ℚ :=
  sumConflictSamples hdist seg1 seg2 (sampleTimes overlap_start overlap_end)

/-- One entry of the conflict_details list built at
ntsc_calculator-checkpoint.py lines 51 to 56: the aircraft pair, the
duration and the time range; the min_distance key (a square root) is
omitted. -/
structure ConflictDetail where
  aircraft_pair : String × String
  duration : ℚ
  time_range : ℚ × ℚ
deriving DecidableEq

/-- Embedding of NTSCCalculator._get_safety_level,
ntsc_calculator-checkpoint.py lines 127 to 138. -/
def get_safety_level (ntsc : ℚ) : String :=
  if ntsc < 1/100 then "EXCELLENT"
  else if ntsc < 5/100 then "GOOD"
  else if ntsc < 1/10 then "ACCEPTABLE"
  else if ntsc < 1/5 then "WARNING"
  else "CRITICAL"

/-- The dict returned by NTSCCalculator.calculate_ntsc,
ntsc_calculator-checkpoint.py lines 60 to 67. -/
structure NTSCResult where
  ntsc_value : ℚ
  conflict_percentage : ℚ
  total_flight_time : ℚ
  total_conflict_time : ℚ
  conflict_details : List ConflictDetail
  safety_level : String
deriving DecidableEq

/-- All pairs (l[i], l[j]) with i < j in loop order, as visited by the
double loop for i, for j in range(i+1, ...) used at
ntsc_calculator-checkpoint.py lines 33 to 34 and
enhanced_route_analyzer-checkpoint.py lines 130 to 131. -/
def allPairs {α : Type} : List α → List (α × α)
  | [] => []
  | x :: xs => xs.map (fun y => (x, y)) ++ allPairs xs

/-- The body of the pair loop of NTSCCalculator.calculate_ntsc,
ntsc_calculator-checkpoint.py lines 35 to 56: pairs sharing an aircraft_id
are skipped (lines 38 to 39), the temporal overlap is computed (lines 42
to 43), and when overlap_start < overlap_end (line 45) the conflict
duration is computed and a conflict_details entry appended exactly when
that duration is positive (lines 46 to 56). The result is the list of
entries this pair contributes (empty or a singleton); none is a propagated
exception. -/
def pairConflict (hdist : GeoPoint3D → GeoPoint3D → ℚ)
    (p : FlightSegment × FlightSegment) : Option (List ConflictDetail) :=
  if p.1.aircraft_id = p.2.aircraft_id then some []
  else
    let overlap_start := max p.1.start_time p.2.start_time
    let overlap_end := min p.1.end_time p.2.end_time
    if overlap_start < overlap_end then
      (conflict_duration hdist p.1 p.2 overlap_start overlap_end).map (fun d =>
        if 0 < d then
          [⟨(p.1.aircraft_id, p.2.aircraft_id), d, (overlap_start, overlap_end)⟩]
        else [])
    else some []

/-- Sequential accumulation of conflict_details over the pair list, in loop
order; an exception in any pair aborts the whole call (none), as the Python
exception would. -/
def collectConflicts (hdist : GeoPoint3D → GeoPoint3D → ℚ) :
    List (FlightSegment × FlightSegment) → Option (List ConflictDetail)
  | [] => some []
  | p :: ps =>
    match pairConflict hdist p, collectConflicts hdist ps with
    | some evs, some rest => some (evs ++ rest)
    | _, _ => none

/-- Embedding of NTSCCalculator.calculate_ntsc,
ntsc_calculator-checkpoint.py lines 22 to 67: total_flight_time sums the
segment durations (lines 29 to 30), the pair loop collects conflict_details
and conflict_time (lines 33 to 56, where conflict_time equals the sum of
the recorded durations since both are updated under the same guard), and
ntsc is conflict_time / total_flight_time when total_flight_time > 0 and 0
otherwise (line 58). No input validation of any kind is performed. -/
def calculate_ntsc (hdist : GeoPoint3D → GeoPoint3D → ℚ)
    (flight_segments : List FlightSegment) : Option NTSCResult :=
  let total_flight_time := (flight_segments.map
    (fun s => s.end_time - s.start_time)).sum
  (collectConflicts hdist (allPairs flight_segments)).map (fun conflict_details =>
    let conflict_time := (conflict_details.map ConflictDetail.duration).sum
    let ntsc := if 0 < total_flight_time then conflict_time / total_flight_time else 0
    { ntsc_value := ntsc
      conflict_percentage := ntsc * 100
      total_flight_time := total_flight_time
      total_conflict_time := conflict_time
      conflict_details := conflict_details
      safety_level := get_safety_level ntsc })

/-- Embedding of EnhancedRouteAnalyzer._calculate_conflict_severity,
enhanced_route_analyzer-checkpoint.py lines 180 to 189, with the hardcoded
distance bands 20, 30, 40 and time bands 10, 30, 45 of the source. -/
def calculate_conflict_severity (distance time_diff : ℚ) : String :=
  if distance < 20 ∧ time_diff < 10 then "CRITICAL"
  else if distance < 30 ∧ time_diff < 30 then "HIGH"
  else if distance < 40 ∧ time_diff < 45 then "MEDIUM"
  else "LOW"

/-- Numeric rank of the severity strings in the order LOW, MEDIUM, HIGH,
CRITICAL. -/
def severity_rank (s : String) : ℕ :=
  if s = "CRITICAL" then 3
  else if s = "HIGH" then 2
  else if s = "MEDIUM" then 1
  else 0

/-- A waypoint dictionary of a route path as consumed by
EnhancedRouteAnalyzer and AirspaceCapacityAnalyzer: longitude, latitude,
height and time. -/
structure Waypoint where
  longitude : ℚ
  latitude : ℚ
  height : ℚ
  time : ℚ
deriving DecidableEq

/-- A route dictionary with keys name and path, as consumed by
EnhancedRouteAnalyzer.analyze_route_conflicts. -/
structure NamedRoute where
  name : String
  path : List Waypoint
deriving DecidableEq

/-- Embedding of the distance test of
EnhancedRouteAnalyzer.analyze_route_conflicts,
enhanced_route_analyzer-checkpoint.py lines 151 to 156: the source flags a
conflict when sqrt(horizontal^2 + vertical^2) < SAFETY_SEPARATION (50),
embedded in the equivalent squared form. -/
def analyzer_conflict_check (horizontal_distance vertical_distance : ℚ) : Bool :=
  decide (horizontal_distance ^ 2 + vertical_distance ^ 2 < 50 ^ 2)

/-- The severity computed at enhanced_route_analyzer-checkpoint.py lines
169 to 171, where _calculate_conflict_severity receives the 3D distance
sqrt(horizontal^2 + vertical^2): its three strict comparisons against 20,
30 and 40 are embedded in squared form against 400, 900 and 1600, which is
equivalent since the 3D distance is nonnegative. -/
def severity_of_squared (dist_sq time_diff : ℚ) : String :=
  if dist_sq < 400 ∧ time_diff < 10 then "CRITICAL"
  else if dist_sq < 900 ∧ time_diff < 30 then "HIGH"
  else if dist_sq < 1600 ∧ time_diff < 45 then "MEDIUM"
  else "LOW"

/-- One entry of the conflicts list built at
enhanced_route_analyzer-checkpoint.py lines 157 to 172; the distance key
(a square root) is omitted. -/
structure RouteConflict where
  route1 : String
  route2 : String
  point1_index : ℕ
  point2_index : ℕ
  time : ℚ
  location : GeoPoint3D
  severity : String
deriving DecidableEq

/-- The body of the waypoint-pair loop of
EnhancedRouteAnalyzer.analyze_route_conflicts,
enhanced_route_analyzer-checkpoint.py lines 136 to 172: points whose time
difference is below 60 seconds (line 141) and whose 3D distance is below
the safety separation (lines 151 to 156) yield one conflict entry. -/
def waypoint_pair_conflict (hdist : Waypoint → Waypoint → ℚ)
    (name1 name2 : String) (k1 : ℕ) (point1 : Waypoint) (k2 : ℕ)
    (point2 : Waypoint) : List RouteConflict :=
  let time_diff := |point1.time - point2.time|
  if time_diff < 60 then
    let horizontal_distance := hdist point1 point2
    let vertical_distance := |point1.height - point2.height|
    if analyzer_conflict_check horizontal_distance vertical_distance then
      [{ route1 := name1
         route2 := name2
         point1_index := k1
         point2_index := k2
         time := point1.time
         location := ⟨(point1.longitude + point2.longitude) / 2,
                      (point1.latitude + point2.latitude) / 2,
                      (point1.height + point2.height) / 2⟩
         severity := severity_of_squared
           (horizontal_distance ^ 2 + vertical_distance ^ 2) time_diff }]
    else []
  else []

/-- The conflicts contributed by one pair of routes: all waypoint pairs of
the two paths, in enumeration order (enhanced_route_analyzer-checkpoint.py
lines 136 to 137). -/
def route_pair_conflicts (hdist : Waypoint → Waypoint → ℚ)
    (r1 r2 : NamedRoute) : List RouteConflict :=
  (r1.path.enum.map (fun kp1 =>
    (r2.path.enum.map (fun kp2 =>
      waypoint_pair_conflict hdist r1.name r2.name kp1.1 kp1.2 kp2.1 kp2.2)).flatten)).flatten

/-- The dict returned by EnhancedRouteAnalyzer.analyze_route_conflicts,
enhanced_route_analyzer-checkpoint.py lines 174 to 178, restricted to
total_conflicts and conflicts; the risk_assessment value is not mentioned
by any claim and is omitted. -/
structure ConflictReport where
  total_conflicts : ℕ
  conflicts : List RouteConflict
deriving DecidableEq

/-- Embedding of EnhancedRouteAnalyzer.analyze_route_conflicts,
enhanced_route_analyzer-checkpoint.py lines 123 to 178: for every pair of
routes in loop order, every pair of raw waypoints within the 60 second
window is tested against the single 3D separation threshold, and
total_conflicts is the length of the collected list (line 175). -/
def analyze_route_conflicts (hdist : Waypoint → Waypoint → ℚ)
    (routes : List NamedRoute) : ConflictReport :=
  let conflicts := ((allPairs routes).map
    (fun pr => route_pair_conflicts hdist pr.1 pr.2)).flatten
  { total_conflicts := conflicts.length
    conflicts := conflicts }

/-- Truncation toward zero, the behaviour of the Python int() conversion on
a finite value. -/
def pyTrunc (q : ℚ) : ℤ := if q < 0 then -⌊-q⌋ else ⌊q⌋

/-- Embedding of AirspaceCapacityAnalyzer._calculate_route_length,
airspace_capacity-checkpoint.py lines 73 to 85: the sum of the haversine
distances of consecutive waypoints, with the haversine abstracted as
hdist. -/
def route_length (hdist : Waypoint → Waypoint → ℚ) : List Waypoint → ℚ
  | p1 :: p2 :: rest => hdist p1 p2 + route_length hdist (p2 :: rest)
  | _ => 0

/-- The capacity_metrics dict returned by
AirspaceCapacityAnalyzer.calculate_route_capacity,
airspace_capacity-checkpoint.py lines 20 to 26. -/
structure CapacityMetrics where
  max_aircraft_count : ℤ
  throughput_per_hour : ℤ
  density_limit : ℤ
  safety_factor : ℚ
  route_length_km : ℚ
deriving DecidableEq

/-- Embedding of AirspaceCapacityAnalyzer.calculate_route_capacity,
airspace_capacity-checkpoint.py lines 12 to 51: all metrics start at 0;
when the route length is positive the maximum aircraft count is
int(length / (50 + 10)); the hourly throughput is
int(max_aircraft_count / travel_time) where travel_time =
(length / 1000) / 50 hours, computed only when travel_time > 0 (line 39),
so a zero travel time leaves the throughput 0; the density limit is
int(10 * area) when the area is positive. -/
def calculate_route_capacity (hdist : Waypoint → Waypoint → ℚ)
    (route : List Waypoint) (route_width : ℚ) : CapacityMetrics :=
  let total_length := route_length hdist route
  let max_aircraft_count := if 0 < total_length then pyTrunc (total_length / (50 + 10)) else 0
  let throughput_per_hour :=
    if 0 < total_length then
      if 0 < total_length / 1000 / 50 then
        pyTrunc ((max_aircraft_count : ℚ) / (total_length / 1000 / 50))
      else 0
    else 0
  let route_area := (total_length / 1000) * (route_width / 1000)
  let density_limit := if 0 < route_area then pyTrunc (10 * route_area) else 0
  { max_aircraft_count := max_aircraft_count
    throughput_per_hour := throughput_per_hour
    density_limit := density_limit
    safety_factor := 4/5
    route_length_km := total_length / 1000 }

/-- Shared sample position used by concrete instances below. -/
def samplePoint : GeoPoint3D := ⟨113, 23, 100⟩

/-- A nondegenerate segment used by concrete instances below. -/
def unitSegment : FlightSegment := ⟨0, 1, ⟨0, 0, 0⟩, ⟨1, 2, 3⟩, "U"⟩

/-- Two distinct aircraft flying the same one-second segment at the same
position. -/
def twoAircraftSegments : List FlightSegment :=
  [⟨0, 1, samplePoint, samplePoint, "A"⟩, ⟨0, 1, samplePoint, samplePoint, "B"⟩]

/-- Four distinct aircraft flying the same one-second segment at the same
position: every one of the six pairs is in conflict at both sample
instants. -/
def fourOverlappingSegments : List FlightSegment :=
  [⟨0, 1, samplePoint, samplePoint, "A"⟩, ⟨0, 1, samplePoint, samplePoint, "B"⟩,
   ⟨0, 1, samplePoint, samplePoint, "C"⟩, ⟨0, 1, samplePoint, samplePoint, "D"⟩]

/-- Two segments of one and the same aircraft at the same position and the
same time window. -/
def sameAircraftSegments : List FlightSegment :=
  [⟨0, 1, samplePoint, samplePoint, "C"⟩, ⟨0, 1, samplePoint, samplePoint, "C"⟩]

/-- A position violating every range invariant: longitude 200, latitude 95,
negative height. -/
def outOfRangePoint : GeoPoint3D := ⟨200, 95, -5⟩

/-- Two overlapping coincident segments of distinct aircraft placed at the
out-of-range position. -/
def outOfRangeSegments : List FlightSegment :=
  [⟨0, 1, outOfRangePoint, outOfRangePoint, "A"⟩,
   ⟨0, 1, outOfRangePoint, outOfRangePoint, "B"⟩]

theorem clamp01_nonneg (r : ℚ) : 0 ≤ clamp01 r := le_max_left 0 _

theorem clamp01_le_one (r : ℚ) : clamp01 r ≤ 1 :=
  max_le zero_le_one (min_le_left 1 r)

theorem interp_coord_zero (a b : ℚ) : a + 0 * (b - a) = a := by ring

theorem interp_coord_one (a b : ℚ) : a + 1 * (b - a) = b := by ring

theorem interp_coord_bounds (a b r : ℚ) (h0 : 0 ≤ r) (h1 : r ≤ 1) :
    min a b ≤ a + r * (b - a) ∧ a + r * (b - a) ≤ max a b := by
  rcases le_total a b with hab | hab
  · rw [min_eq_left hab, max_eq_right hab]
    constructor <;> nlinarith
  · rw [min_eq_right hab, max_eq_left hab]
    constructor <;> nlinarith

theorem interpolate_clamp_low (seg : FlightSegment) (t : ℚ)
    (h : seg.start_time < seg.end_time) (ht : t ≤ seg.start_time) :
    interpolate_position seg t = some seg.start_pos := by
  unfold interpolate_position
  have hne : seg.end_time - seg.start_time ≠ 0 := sub_ne_zero.mpr (ne_of_gt h)
  rw [if_neg hne]
  have hd : 0 < seg.end_time - seg.start_time := sub_pos.mpr h
  have hr : clamp01 ((t - seg.start_time) / (seg.end_time - seg.start_time)) = 0 := by
    have hq : (t - seg.start_time) / (seg.end_time - seg.start_time) ≤ 0 :=
      div_nonpos_iff.mpr (Or.inr ⟨sub_nonpos.mpr ht, hd.le⟩)
    unfold clamp01
    rw [min_eq_right (hq.trans zero_le_one), max_eq_left hq]
  rw [hr]
  dsimp only
  rw [interp_coord_zero, interp_coord_zero, interp_coord_zero]

theorem interpolate_clamp_high (seg : FlightSegment) (t : ℚ)
    (h : seg.start_time < seg.end_time) (ht : seg.end_time ≤ t) :
    interpolate_position seg t = some seg.end_pos := by
  unfold interpolate_position
  have hne : seg.end_time - seg.start_time ≠ 0 := sub_ne_zero.mpr (ne_of_gt h)
  rw [if_neg hne]
  have hd : 0 < seg.end_time - seg.start_time := sub_pos.mpr h
  have hr : clamp01 ((t - seg.start_time) / (seg.end_time - seg.start_time)) = 1 := by
    have hq : 1 ≤ (t - seg.start_time) / (seg.end_time - seg.start_time) :=
      (one_le_div hd).mpr (by linarith)
    unfold clamp01
    rw [min_eq_left hq, max_eq_right zero_le_one]
  rw [hr]
  dsimp only
  rw [interp_coord_one, interp_coord_one, interp_coord_one]

theorem mem_allPairs {α : Type} (l : List α) (p : α × α) (h : p ∈ allPairs l) :
    p.1 ∈ l ∧ p.2 ∈ l := by
  induction l with
  | nil => simp [allPairs] at h
  | cons x xs ih =>
    simp only [allPairs, List.mem_append, List.mem_map] at h
    rcases h with ⟨y, hy, rfl⟩ | h
    · exact ⟨List.mem_cons_self x xs, List.mem_cons_of_mem x hy⟩
    · exact ⟨List.mem_cons_of_mem x (ih h).1, List.mem_cons_of_mem x (ih h).2⟩

theorem pairConflict_sound {hdist : GeoPoint3D → GeoPoint3D → ℚ}
    {p : FlightSegment × FlightSegment} {evs : List ConflictDetail}
    {ev : ConflictDetail} (h : pairConflict hdist p = some evs) (hm : ev ∈ evs) :
    0 < ev.duration ∧ ev.aircraft_pair.1 ≠ ev.aircraft_pair.2 := by
  simp only [pairConflict] at h
  by_cases hid : p.1.aircraft_id = p.2.aircraft_id
  · rw [if_pos hid] at h
    injection h with h2
    subst h2
    exact absurd hm (by simp)
  · rw [if_neg hid] at h
    by_cases hov : max p.1.start_time p.2.start_time < min p.1.end_time p.2.end_time
    · rw [if_pos hov] at h
      rw [Option.map_eq_some'] at h
      obtain ⟨d, hd, hf⟩ := h
      by_cases hpos : 0 < d
      · rw [if_pos hpos] at hf
        subst hf
        rw [List.mem_singleton] at hm
        subst hm
        exact ⟨hpos, hid⟩
      · rw [if_neg hpos] at hf
        subst hf
        exact absurd hm (by simp)
    · rw [if_neg hov] at h
      injection h with h2
      subst h2
      exact absurd hm (by simp)

theorem collectConflicts_sound {hdist : GeoPoint3D → GeoPoint3D → ℚ}
    {l : List (FlightSegment × FlightSegment)} {out : List ConflictDetail}
    {ev : ConflictDetail} (h : collectConflicts hdist l = some out)
    (hm : ev ∈ out) :
    ∃ p ∈ l, ∃ evs, pairConflict hdist p = some evs ∧ ev ∈ evs := by
  induction l generalizing out with
  | nil =>
    simp only [collectConflicts] at h
    injection h with h2
    subst h2
    exact absurd hm (by simp)
  | cons q qs ih =>
    simp only [collectConflicts] at h
    cases hq : pairConflict hdist q with
    | none => rw [hq] at h; simp at h
    | some evs1 =>
      cases hrest : collectConflicts hdist qs with
      | none => rw [hq, hrest] at h; simp at h
      | some rest =>
        rw [hq, hrest] at h
        injection h with h2
        subst h2
        rcases List.mem_append.mp hm with hl | hr
        · exact ⟨q, List.mem_cons_self q qs, evs1, hq, hl⟩
        · obtain ⟨p, hp, evs, hpc, hev⟩ := ih hrest hr
          exact ⟨p, List.mem_cons_of_mem q hp, evs, hpc, hev⟩

theorem collectConflicts_all_empty {hdist : GeoPoint3D → GeoPoint3D → ℚ}
    {l : List (FlightSegment × FlightSegment)}
    (h : ∀ p ∈ l, pairConflict hdist p = some []) :
    collectConflicts hdist l = some [] := by
  induction l with
  | nil => rfl
  | cons q qs ih =>
    simp only [collectConflicts]
    rw [h q (List.mem_cons_self q qs), ih (fun p hp => h p (List.mem_cons_of_mem q hp))]
    rfl

/-- Shared concrete fact: two coincident single-second segments with
horizontal distance 0 (the haversine value on coincident points)
accumulate a conflict duration of 2 seconds: the while loop visits t = 0
and t = 1 and both samples pass the separation test. -/
theorem coincident_unit_duration (a b : String) (p : GeoPoint3D) :
    conflict_duration (fun _ _ => 0) ⟨0, 1, p, p, a⟩ ⟨0, 1, p, p, b⟩ 0 1 = some 2 := by
  simp [conflict_duration, sampleTimes, sumConflictSamples, sampleConflict,
    interpolate_position, separation_check, clamp01]
  norm_num [List.range_succ]

/-- Shared concrete fact: the empty segment list yields the zero report
with safety level EXCELLENT. -/
theorem ntsc_empty_eval :
    calculate_ntsc (fun _ _ => 0) [] = some ⟨0, 0, 0, 0, [], "EXCELLENT"⟩ := by
  simp [calculate_ntsc, collectConflicts, allPairs, get_safety_level]

/-- Shared concrete fact: two distinct coincident aircraft produce one
conflict pair of duration 2 against a total flight time of 2, so the ntsc
value is exactly 1. -/
theorem two_aircraft_eval :
    calculate_ntsc (fun _ _ => 0) twoAircraftSegments =
      some ⟨1, 100, 2, 2, [⟨("A", "B"), 2, (0, 1)⟩], "CRITICAL"⟩ := by
  simp [calculate_ntsc, collectConflicts, allPairs, pairConflict,
    coincident_unit_duration, get_safety_level, twoAircraftSegments]
  norm_num

/-- Counterexample for claim C1 as stated: four coincident one-second
aircraft give calculate_ntsc six conflicting pairs of 2 seconds each
against a total flight time of 4 seconds, so the returned ntsc_value is 3,
outside [0, 1]. The constant horizontal distance 0 is the haversine value
on these coincident positions. -/
theorem ntsc_can_exceed_one :
    (calculate_ntsc (fun _ _ => 0) fourOverlappingSegments).map NTSCResult.ntsc_value =
      some 3 ∧ ¬ ((3 : ℚ) ≤ 1) := by
  constructor
  · simp [calculate_ntsc, collectConflicts, allPairs, pairConflict,
      coincident_unit_duration, fourOverlappingSegments]
    norm_num
  · norm_num

/-- Claim C1 (amended): whenever calculate_ntsc returns a result, its
ntsc_value is nonnegative; the upper bound 1 of the original claim does not
hold in general because conflict durations are summed over all pairs. -/
theorem ntsc_value_nonneg (hdist : GeoPoint3D → GeoPoint3D → ℚ)
    (segments : List FlightSegment) (r : NTSCResult)
    (h : calculate_ntsc hdist segments = some r) : 0 ≤ r.ntsc_value := by
  simp only [calculate_ntsc] at h
  rw [Option.map_eq_some'] at h
  obtain ⟨details, hc, hr⟩ := h
  subst hr
  dsimp only
  have hct : 0 ≤ (details.map ConflictDetail.duration).sum := by
    apply List.sum_nonneg
    intro x hx
    rw [List.mem_map] at hx
    obtain ⟨ev, hev, rfl⟩ := hx
    obtain ⟨pp, hp, evs, hpc, hevs⟩ := collectConflicts_sound hc hev
    exact le_of_lt (pairConflict_sound hpc hevs).1
  split_ifs with htft
  · exact div_nonneg hct htft.le
  · exact le_rfl

/-- Witness for the amended claim C1 at the two-aircraft instance, whose
computed ntsc_value is 1. -/
theorem ntsc_value_nonneg_witness :
    0 ≤ (⟨1, 100, 2, 2, [⟨("A", "B"), 2, (0, 1)⟩], "CRITICAL"⟩ : NTSCResult).ntsc_value :=
  ntsc_value_nonneg (fun _ _ => 0) twoAircraftSegments _ two_aircraft_eval

/-- Claim C2, evaluated at the failing input: on a segment whose end_time
equals its start_time the source _interpolate_position divides by zero and
raises ZeroDivisionError (the none branch of the embedding) instead of
returning the start position as the claim and the spec require. -/
theorem interpolate_degenerate_zero_division :
    interpolate_position ⟨5, 5, ⟨1, 2, 3⟩, ⟨4, 5, 6⟩, "A"⟩ 99 = none := by
  simp [interpolate_position]

/-- Claim C3, evaluated at the failing input: on segments placed at
longitude 200, latitude 95 and height -5, all out of range, calculate_ntsc
performs no validation and silently computes a complete report with
ntsc_value 1 instead of failing with a validation error; no function of
the source checks any input range. -/
theorem ntsc_silently_computes_on_invalid_geometry :
    (calculate_ntsc (fun _ _ => 0) outOfRangeSegments).map NTSCResult.ntsc_value =
      some 1 := by
  simp [calculate_ntsc, collectConflicts, allPairs, pairConflict,
    coincident_unit_duration, outOfRangeSegments]
  norm_num

/-- Counterexample for claim C4 as stated: in the conflict test of
analyze_route_conflicts a pair at horizontal distance 49 and vertical
distance 29 (the thresholds minus 1) is NOT flagged, because that test
thresholds the single 3D distance sqrt(49 squared + 29 squared),
about 56.9, against 50. -/
theorem analyzer_tie_not_flagged :
    analyzer_conflict_check (50 - 1) (30 - 1) = false := by
  simp only [analyzer_conflict_check, decide_eq_false_iff_not]
  norm_num

/-- Claim C4 (amended): the per-sample test of the ntsc_calculator detector
is strict less-than on both components, so a pair exactly at the
separation thresholds is not counted while a pair below both thresholds by
any positive margin is; the route analyzer instead thresholds the single
3D distance, under which the pair at (49, 29) is not flagged. -/
theorem conflict_threshold_strict (ep : ℚ) (h : 0 < ep) :
    separation_check 50 30 = false ∧
    separation_check (50 - ep) (30 - ep) = true ∧
    analyzer_conflict_check (50 - 1) (30 - 1) = false := by
  refine ⟨?_, ?_, ?_⟩
  · simp [separation_check]
  · simp only [separation_check, Bool.and_eq_true, decide_eq_true_eq]
    constructor <;> linarith
  · simp only [analyzer_conflict_check, decide_eq_false_iff_not]
    norm_num

/-- Witness for the amended claim C4 at margin 1. -/
theorem conflict_threshold_strict_witness :
    separation_check 50 30 = false ∧
    separation_check (50 - 1) (30 - 1) = true ∧
    analyzer_conflict_check (50 - 1) (30 - 1) = false :=
  conflict_threshold_strict 1 (by norm_num)

/-- Claim C5: for every segment whose end_time is strictly after its
start_time, the interpolated position at start_time is the start position,
at end_time the end position, and any query time outside the window is
clamped to the nearer endpoint rather than extrapolated. -/
theorem interpolation_boundary (seg : FlightSegment) (t : ℚ)
    (h : seg.start_time < seg.end_time) :
    interpolate_position seg seg.start_time = some seg.start_pos ∧
    interpolate_position seg seg.end_time = some seg.end_pos ∧
    (t ≤ seg.start_time → interpolate_position seg t = some seg.start_pos) ∧
    (seg.end_time ≤ t → interpolate_position seg t = some seg.end_pos) :=
  ⟨interpolate_clamp_low seg seg.start_time h le_rfl,
   interpolate_clamp_high seg seg.end_time h le_rfl,
   fun ht => interpolate_clamp_low seg t h ht,
   fun ht => interpolate_clamp_high seg t h ht⟩

/-- Witness for claim C5 at a concrete nondegenerate segment and an
out-of-window query time. -/
theorem interpolation_boundary_witness :
    interpolate_position unitSegment unitSegment.start_time = some unitSegment.start_pos ∧
    interpolate_position unitSegment unitSegment.end_time = some unitSegment.end_pos ∧
    ((-5 : ℚ) ≤ unitSegment.start_time →
      interpolate_position unitSegment (-5) = some unitSegment.start_pos) ∧
    (unitSegment.end_time ≤ (-5 : ℚ) →
      interpolate_position unitSegment (-5) = some unitSegment.end_pos) :=
  interpolation_boundary unitSegment (-5) (by norm_num [unitSegment])

/-- Claim C6: two segments sharing an aircraft_id never produce a conflict
entry nor contribute conflict time: every recorded conflict_details entry
names two distinct aircraft, and a fleet whose segments all carry one
aircraft_id yields an empty conflict list and zero total conflict time,
regardless of proximity. -/
theorem no_self_conflict :
    (∀ (hdist : GeoPoint3D → GeoPoint3D → ℚ) (segments : List FlightSegment)
      (r : NTSCResult) (ev : ConflictDetail), calculate_ntsc hdist segments = some r →
      ev ∈ r.conflict_details → ev.aircraft_pair.1 ≠ ev.aircraft_pair.2) ∧
    (∀ (hdist : GeoPoint3D → GeoPoint3D → ℚ) (segments : List FlightSegment)
      (c : String), (∀ s ∈ segments, s.aircraft_id = c) →
      ∃ r, calculate_ntsc hdist segments = some r ∧
        r.conflict_details = [] ∧ r.total_conflict_time = 0) := by
  constructor
  · intro hdist segments r ev h hm
    simp only [calculate_ntsc] at h
    rw [Option.map_eq_some'] at h
    obtain ⟨details, hc, hr⟩ := h
    subst hr
    dsimp only at hm
    obtain ⟨pp, hp, evs, hpc, hevs⟩ := collectConflicts_sound hc hm
    exact (pairConflict_sound hpc hevs).2
  · intro hdist segments c hc
    have hcoll : collectConflicts hdist (allPairs segments) = some [] := by
      apply collectConflicts_all_empty
      intro p hp
      have hmem := mem_allPairs segments p hp
      simp only [pairConflict]
      rw [if_pos ((hc p.1 hmem.1).trans (hc p.2 hmem.2).symm)]
    simp only [calculate_ntsc, hcoll, Option.map_some']
    refine ⟨_, rfl, ?_, ?_⟩
    · rfl
    · simp

/-- Witness for claim C6: a concrete recorded conflict entry names distinct
aircraft, and a fleet flying under one aircraft_id yields no conflicts. -/
theorem no_self_conflict_witness :
    ("A" : String) ≠ "B" ∧
    (∃ r, calculate_ntsc (fun _ _ => 0) sameAircraftSegments = some r ∧
      r.conflict_details = [] ∧ r.total_conflict_time = 0) := by
  constructor
  · exact no_self_conflict.1 (fun _ _ => 0) twoAircraftSegments
      ⟨1, 100, 2, 2, [⟨("A", "B"), 2, (0, 1)⟩], "CRITICAL"⟩ ⟨("A", "B"), 2, (0, 1)⟩
      two_aircraft_eval (by simp)
  · exact no_self_conflict.2 (fun _ _ => 0) sameAircraftSegments "C"
      (by
        intro s hs
        simp only [sameAircraftSegments, List.mem_cons, List.not_mem_nil, or_false] at hs
        rcases hs with h | h <;> (subst h; rfl))

/-- Claim C7: the severity classifier of the route analyzer is monotonic:
decreasing the distance or decreasing the time difference never yields a
strictly lower tier in the order LOW, MEDIUM, HIGH, CRITICAL. -/
theorem severity_monotone (d t d2 t2 : ℚ) (hd : d2 ≤ d) (ht : t2 ≤ t) :
    severity_rank (calculate_conflict_severity d t) ≤
    severity_rank (calculate_conflict_severity d2 t2) := by
  unfold calculate_conflict_severity
  by_cases h1 : d < 20 ∧ t < 10
  · rw [if_pos h1, if_pos ⟨lt_of_le_of_lt hd h1.1, lt_of_le_of_lt ht h1.2⟩]
  · rw [if_neg h1]
    by_cases h2 : d < 30 ∧ t < 30
    · rw [if_pos h2]
      by_cases h1b : d2 < 20 ∧ t2 < 10
      · rw [if_pos h1b]; simp [severity_rank]
      · rw [if_neg h1b, if_pos ⟨lt_of_le_of_lt hd h2.1, lt_of_le_of_lt ht h2.2⟩]
    · rw [if_neg h2]
      by_cases h3 : d < 40 ∧ t < 45
      · rw [if_pos h3]
        by_cases h1b : d2 < 20 ∧ t2 < 10
        · rw [if_pos h1b]; simp [severity_rank]
        · rw [if_neg h1b]
          by_cases h2b : d2 < 30 ∧ t2 < 30
          · rw [if_pos h2b]; simp [severity_rank]
          · rw [if_neg h2b, if_pos ⟨lt_of_le_of_lt hd h3.1, lt_of_le_of_lt ht h3.2⟩]
      · rw [if_neg h3]
        have hlow : severity_rank "LOW" = 0 := by simp [severity_rank]
        rw [hlow]
        exact Nat.zero_le _

/-- Witness for claim C7, moving from (38 m, 40 s), tier MEDIUM, down to
(10 m, 5 s), tier CRITICAL. -/
theorem severity_monotone_witness :
    severity_rank (calculate_conflict_severity 38 40) ≤
    severity_rank (calculate_conflict_severity 10 5) :=
  severity_monotone 38 40 10 5 (by norm_num) (by norm_num)

/-- Claim C8: division-by-zero edge cases resolve to 0: whenever
calculate_ntsc returns a result with total flight time 0 its ntsc_value is
0, and the hourly throughput of calculate_route_capacity is 0 whenever the
travel time is 0. -/
theorem division_by_zero_policy :
    (∀ (hdist : GeoPoint3D → GeoPoint3D → ℚ) (segments : List FlightSegment)
      (r : NTSCResult), calculate_ntsc hdist segments = some r →
      r.total_flight_time = 0 → r.ntsc_value = 0) ∧
    (∀ (hdist : Waypoint → Waypoint → ℚ) (route : List Waypoint)
      (route_width : ℚ), route_length hdist route / 1000 / 50 = 0 →
      (calculate_route_capacity hdist route route_width).throughput_per_hour = 0) := by
  constructor
  · intro hdist segments r h htft
    simp only [calculate_ntsc] at h
    rw [Option.map_eq_some'] at h
    obtain ⟨details, hc, hr⟩ := h
    subst hr
    dsimp only at htft ⊢
    rw [htft]
    simp
  · intro hdist route route_width h
    simp only [calculate_route_capacity]
    by_cases hlen : 0 < route_length hdist route
    · rw [if_pos hlen, if_neg (by rw [h]; exact lt_irrefl 0)]
    · rw [if_neg hlen]

/-- Witness for claim C8: the empty segment list has total flight time 0
and ntsc value 0, and the empty route has travel time 0 and throughput 0. -/
theorem division_by_zero_policy_witness :
    (⟨0, 0, 0, 0, [], "EXCELLENT"⟩ : NTSCResult).ntsc_value = 0 ∧
    (calculate_route_capacity (fun _ _ => 0) [] 100).throughput_per_hour = 0 :=
  ⟨division_by_zero_policy.1 (fun _ _ => 0) [] _ ntsc_empty_eval rfl,
   division_by_zero_policy.2 (fun _ _ => 0) [] 100 (by simp [route_length])⟩

/-- Claim C9: for every list of routes, the report returned by
analyze_route_conflicts has total_conflicts equal to the number of entries
of its conflicts list. -/
theorem total_conflicts_eq_length (hdist : Waypoint → Waypoint → ℚ)
    (routes : List NamedRoute) :
    (analyze_route_conflicts hdist routes).total_conflicts =
    (analyze_route_conflicts hdist routes).conflicts.length := by
  simp [analyze_route_conflicts]

/-- Claim C10: whenever the interpolator returns a position, each of its
coordinates lies between the minimum and the maximum of the corresponding
start and end coordinates, so extrapolation beyond the endpoints never
occurs; the interpolator returns a position exactly when the segment has
nonzero duration. -/
theorem interpolation_within_bounds (seg : FlightSegment) (t : ℚ)
    (p : GeoPoint3D) (h : interpolate_position seg t = some p) :
    min seg.start_pos.longitude seg.end_pos.longitude ≤ p.longitude ∧
    p.longitude ≤ max seg.start_pos.longitude seg.end_pos.longitude ∧
    min seg.start_pos.latitude seg.end_pos.latitude ≤ p.latitude ∧
    p.latitude ≤ max seg.start_pos.latitude seg.end_pos.latitude ∧
    min seg.start_pos.height seg.end_pos.height ≤ p.height ∧
    p.height ≤ max seg.start_pos.height seg.end_pos.height := by
  unfold interpolate_position at h
  by_cases hz : seg.end_time - seg.start_time = 0
  · rw [if_pos hz] at h
    exact absurd h (by simp)
  · rw [if_neg hz] at h
    injection h with h2
    subst h2
    dsimp only
    have h0 := clamp01_nonneg ((t - seg.start_time) / (seg.end_time - seg.start_time))
    have h1 := clamp01_le_one ((t - seg.start_time) / (seg.end_time - seg.start_time))
    exact ⟨(interp_coord_bounds _ _ _ h0 h1).1, (interp_coord_bounds _ _ _ h0 h1).2,
      (interp_coord_bounds _ _ _ h0 h1).1, (interp_coord_bounds _ _ _ h0 h1).2,
      (interp_coord_bounds _ _ _ h0 h1).1, (interp_coord_bounds _ _ _ h0 h1).2⟩

/-- Witness for claim C10 at a concrete segment and its midpoint sample. -/
theorem interpolation_within_bounds_witness :
    min unitSegment.start_pos.longitude unitSegment.end_pos.longitude ≤
      (⟨1/2, 1, 3/2⟩ : GeoPoint3D).longitude ∧
    (⟨1/2, 1, 3/2⟩ : GeoPoint3D).longitude ≤
      max unitSegment.start_pos.longitude unitSegment.end_pos.longitude ∧
    min unitSegment.start_pos.latitude unitSegment.end_pos.latitude ≤
      (⟨1/2, 1, 3/2⟩ : GeoPoint3D).latitude ∧
    (⟨1/2, 1, 3/2⟩ : GeoPoint3D).latitude ≤
      max unitSegment.start_pos.latitude unitSegment.end_pos.latitude ∧
    min unitSegment.start_pos.height unitSegment.end_pos.height ≤
      (⟨1/2, 1, 3/2⟩ : GeoPoint3D).height ∧
    (⟨1/2, 1, 3/2⟩ : GeoPoint3D).height ≤
      max unitSegment.start_pos.height unitSegment.end_pos.height :=
  interpolation_within_bounds unitSegment (1/2) ⟨1/2, 1, 3/2⟩
    (by simp [interpolate_position, unitSegment, clamp01]; norm_num)
